import Mathlib

/-!
portfolio-backend: the caching facade of `app.js`

A shallow embedding of the two route handlers of `src/app.js`
(`GET /github-data`, lines 22-74, and `GET /leetcode-data`, lines 77-139)
together with the JavaScript values they manipulate, followed by theorems
about them.

Conventions of the embedding:

* JavaScript values are untyped (`JSVal`); property access on `undefined`
  or `null` throws, every other access yields a value (`undefined` when the
  property is absent).
* Numbers (`JSNum`) are IEEE doubles: a finite double is carried by its exact
  value, and both zeros, both infinities and NaN are represented. A quotient
  or product of non-zero finite doubles is the exact result rounded to a
  double; the rounding function is a parameter of the runtime
  (`Builtins.round`), so nothing is assumed of it.
* Time is a natural number of milliseconds (`Date.now()`).
* The handlers are pure functions of the query, the cache, the clock and the
  answer of the upstream; they return the response, the cache afterwards and
  the trace of effects performed.
-/

namespace PortfolioBackend

/-! ## JavaScript numbers -/

/-- A JavaScript number, an IEEE double: a finite double other than negative
zero, given by its exact value (`fin 0` is positive zero), negative zero, one
of the infinities, or NaN. -/
inductive JSNum where
  | fin (q : ℚ)
  | negZero
  | posInf
  | negInf
  | nan
  deriving DecidableEq

namespace JSNum

/-- Whether the number is NaN. -/
def isNaN : JSNum → Bool
  | nan => true
  | _ => false

/-- Whether the number is one of the infinities. -/
def isInf : JSNum → Bool
  | posInf => true
  | negInf => true
  | _ => false

/-- Whether the number is positive or negative zero. -/
def isZero : JSNum → Bool
  | fin q => decide (q = 0)
  | negZero => true
  | _ => false

/-- The sign bit of the number (NaN counted as unsigned). -/
def isNegative : JSNum → Bool
  | fin q => decide (q < 0)
  | negZero => true
  | negInf => true
  | _ => false

/-- Whether the number is an ordinary finite value, zeros included. -/
def isFinite : JSNum → Bool
  | fin _ => true
  | negZero => true
  | _ => false

/-- The exact value of a finite number. -/
def value : JSNum → ℚ
  | fin q => q
  | _ => 0

/-- The zero with the given sign bit. -/
def signedZero (negative : Bool) : JSNum := if negative then negZero else fin 0

/-- The infinity with the given sign bit. -/
def signedInf (negative : Bool) : JSNum := if negative then negInf else posInf

/-- The operator `x / y` on doubles. `round` rounds the exact quotient of two
non-zero finite doubles to a double; every other case is fixed by IEEE 754:
NaN operands, `Infinity / Infinity` and `0 / 0` give NaN, a division by a
zero gives an infinity, and the sign of a zero or infinite result is the
exclusive or of the operands' signs. -/
def div (round : ℚ → JSNum) (x y : JSNum) : JSNum :=
  if x.isNaN || y.isNaN then nan
  else if x.isInf then
    (if y.isInf then nan else signedInf (xor x.isNegative y.isNegative))
  else if y.isInf then signedZero (xor x.isNegative y.isNegative)
  else if y.isZero then
    (if x.isZero then nan else signedInf (xor x.isNegative y.isNegative))
  else if x.isZero then signedZero (xor x.isNegative y.isNegative)
  else round (x.value / y.value)

/-- The operator `x * y` on doubles. `round` rounds the exact product of two
non-zero finite doubles to a double; NaN operands and `Infinity * 0` give
NaN, and the sign of a zero or infinite result is the exclusive or of the
operands' signs. -/
def mul (round : ℚ → JSNum) (x y : JSNum) : JSNum :=
  if x.isNaN || y.isNaN then nan
  else if x.isInf || y.isInf then
    (if x.isZero || y.isZero then nan else signedInf (xor x.isNegative y.isNegative))
  else if x.isZero || y.isZero then signedZero (xor x.isNegative y.isNegative)
  else round (x.value * y.value)

end JSNum

/-! ## JavaScript values -/

/-- An untyped JavaScript value of the kind JSON decoding produces, plus
`undefined`. Objects are association lists in property order. -/
inductive JSVal where
  | undefined
  | null
  | bool (b : Bool)
  | num (n : JSNum)
  | str (s : String)
  | arr (xs : List JSVal)
  | obj (fields : List (String × JSVal))

namespace JSVal

/-- Whether the value is `undefined` or `null`. -/
def nullish : JSVal → Bool
  | undefined => true
  | null => true
  | _ => false

/-- JavaScript truthiness, as tested by `if (v)` and negated by `!v`. -/
def truthy : JSVal → Bool
  | undefined => false
  | null => false
  | bool b => b
  | num (JSNum.fin q) => decide (q ≠ 0)
  | num JSNum.negZero => false
  | num JSNum.nan => false
  | num _ => true
  | str s => decide (s ≠ "")
  | arr _ => true
  | obj _ => true

/-- The value of `v.k` for a value that is neither `undefined` nor `null`.
The property names read by the handlers are plain data names (never
`length` or a prototype member), so only objects carry them. -/
def lookupProp (v : JSVal) (k : String) : JSVal :=
  match v with
  | obj fields => (fields.lookup k).getD undefined
  | _ => undefined

end JSVal

/-- The parts of the JavaScript runtime the handlers call but do not define. -/
structure Builtins where
  /-- The call `JSON.parse(x)`: the parsed value, or the message of the
  `SyntaxError` it throws. -/
  jsonParse : JSVal → Except String JSVal
  /-- The message of the `TypeError` thrown when property `k` is read from the
  nullish value `v`. -/
  typeErrorMessage : JSVal → String → String
  /-- The conversion to number of a string, array or object operand. -/
  coerceToNumber : JSVal → JSNum
  /-- The string `s[i]` when `i` is within the string. -/
  strCharAt : String → Nat → Option String
  /-- The rounding of an exact non-zero quotient or product to a double
  (round to nearest, ties to even; an infinity on overflow, a zero on
  underflow). -/
  round : ℚ → JSNum

namespace JSVal

/-- The conversion `ToNumber` applied to the operands of `/`. -/
def toNumber (B : Builtins) : JSVal → JSNum
  | undefined => JSNum.nan
  | null => JSNum.fin 0
  | bool b => if b then JSNum.fin 1 else JSNum.fin 0
  | num n => n
  | v => B.coerceToNumber v

/-- The member expression `v.k`: throws on `undefined` and `null`. -/
def getProp (B : Builtins) (v : JSVal) (k : String) : Except String JSVal :=
  if v.nullish then .error (B.typeErrorMessage v k) else .ok (v.lookupProp k)

/-- The value of `v[i]` for a value that is neither `undefined` nor `null`. -/
def lookupIndex (B : Builtins) (v : JSVal) (i : Nat) : JSVal :=
  match v with
  | arr xs => xs.getD i undefined
  | str s => ((B.strCharAt s i).map str).getD undefined
  | obj fields => (fields.lookup (toString i)).getD undefined
  | _ => undefined

/-- The member expression `v[i]`: throws on `undefined` and `null`. -/
def getIndex (B : Builtins) (v : JSVal) (i : Nat) : Except String JSVal :=
  if v.nullish then .error (B.typeErrorMessage v (toString i)) else .ok (v.lookupIndex B i)

end JSVal

/-- One step of a member-expression chain: `.name` or `[i]`. -/
inductive Access where
  | prop (k : String)
  | idx (i : Nat)

/-- Evaluation of a member-expression chain such as
`data.matchedUser.submitStats.acSubmissionNum[0].count`, left to right. -/
def path (B : Builtins) (v : JSVal) : List Access → Except String JSVal
  | [] => .ok v
  | Access.prop k :: rest =>
      match v.getProp B k with
      | .ok w => path B w rest
      | .error e => .error e
  | Access.idx i :: rest =>
      match v.getIndex B i with
      | .ok w => path B w rest
      | .error e => .error e

/-! ## The cache (`node-cache`) -/

/-- A stored value with its expiry instant in milliseconds. -/
structure CacheEntry where
  value : JSVal
  expiresAt : Nat

/-- The contents of the process-wide cache, resident expired entries
included. -/
abbrev Cache := String → Option CacheEntry

namespace Cache

/-- The cache created at line 11, before any request. -/
def empty : Cache := fun _ => none

/-- Removal of the entry under `key`. -/
def del (c : Cache) (key : String) : Cache :=
  fun k => if k = key then none else c k

/-- Modelled from the spec: `cache.get(key)` of the `node-cache` package,
which is not part of the repository sources. It returns the stored value
while the entry has not passed its expiry; a read after `expiresAt` is a miss
(`undefined`) and evicts the entry. -/
def get (c : Cache) (key : String) (now : Nat) : JSVal × Cache :=
  match c key with
  | none => (JSVal.undefined, c)
  | some e => if e.expiresAt < now then (JSVal.undefined, c.del key) else (e.value, c)

/-- Modelled from the spec: `cache.set(key, value, ttlSeconds)` of the
`node-cache` package. It overwrites any entry under `key` and sets
`expiresAt = writeTime + TTL`. -/
def set (c : Cache) (key : String) (value : JSVal) (ttlSeconds : Nat) (now : Nat) : Cache :=
  fun k => if k = key then some ⟨value, now + ttlSeconds * 1000⟩ else c k

end Cache

/-! ## Requests, responses and effects -/

/-- The upstream requests the handlers can issue with `axios.post`. -/
inductive UpstreamCall where
  | github
  | leetcode (username : String)
  deriving DecidableEq

/-- The answer of `await axios.post(...)`: the decoded body `response.data`,
or the message of the error thrown (network failure, rejected credentials,
status outside 2xx). -/
abbrev Upstream := UpstreamCall → Except String JSVal

/-- An effect a handler performs, in program order. -/
inductive Effect where
  | cacheGet (key : String)
  | upstream (call : UpstreamCall)
  | cacheSet (key : String) (value : JSVal) (ttlSeconds : Nat)

/-- The HTTP answer: the status and the value handed to `res.json`. -/
structure Response where
  status : Nat
  body : JSVal

/-- Everything a handled request leaves behind. -/
structure Outcome where
  response : Response
  cache : Cache
  trace : List Effect

/-- The number of upstream requests in a trace. -/
def upstreamCalls : List Effect → Nat
  | [] => 0
  | Effect.upstream _ :: rest => upstreamCalls rest + 1
  | _ :: rest => upstreamCalls rest

/-- The number of cache reads and writes in a trace. -/
def cacheAccesses : List Effect → Nat
  | [] => 0
  | Effect.upstream _ :: rest => cacheAccesses rest
  | _ :: rest => cacheAccesses rest + 1

/-- The object literal `{ error: msg }`. -/
def errorBody (msg : String) : JSVal := JSVal.obj [("error", JSVal.str msg)]

/-- The object literal `{ error: 'LeetCode API error', details: error.message }`
of line 137. -/
def leetcodeErrorBody (msg : String) : JSVal :=
  JSVal.obj [("error", JSVal.str "LeetCode API error"), ("details", JSVal.str msg)]

/-! ## `GET /github-data` (lines 22-74) -/

/-- The handler of `/github-data`. `now` is the clock at the cache read and
`now + latency` the clock at the cache write, after the upstream answered. -/
def githubData (upstream : Upstream) (now latency : Nat) (cache : Cache) : Outcome :=
  let r := cache.get "github-data" now
  if r.1.truthy then
    ⟨⟨200, r.1⟩, r.2, [Effect.cacheGet "github-data"]⟩
  else
    match upstream UpstreamCall.github with
    | .ok data =>
        ⟨⟨200, data⟩, r.2.set "github-data" data 300 (now + latency),
          [Effect.cacheGet "github-data", Effect.upstream UpstreamCall.github,
           Effect.cacheSet "github-data" data 300]⟩
    | .error _ =>
        ⟨⟨500, errorBody "GitHub API error"⟩, r.2,
          [Effect.cacheGet "github-data", Effect.upstream UpstreamCall.github]⟩

/-! ## `GET /leetcode-data` (lines 77-139) -/

/-- Lines 115-132: the parsed calendar and the `stats` object literal, its
properties evaluated in source order; any throw aborts the construction. -/
def buildStats (B : Builtins) (data : JSVal) : Except String JSVal := do
  let calendar ← path B data [.prop "matchedUser", .prop "submissionCalendar"]
  let submissionCalendar ← B.jsonParse calendar
  let totalSolved ←
    path B data [.prop "matchedUser", .prop "submitStats", .prop "acSubmissionNum", .idx 0, .prop "count"]
  let totalQuestions ← path B data [.prop "allQuestionsCount", .idx 0, .prop "count"]
  let easySolved ←
    path B data [.prop "matchedUser", .prop "submitStats", .prop "acSubmissionNum", .idx 1, .prop "count"]
  let totalEasy ← path B data [.prop "allQuestionsCount", .idx 1, .prop "count"]
  let mediumSolved ←
    path B data [.prop "matchedUser", .prop "submitStats", .prop "acSubmissionNum", .idx 2, .prop "count"]
  let totalMedium ← path B data [.prop "allQuestionsCount", .idx 2, .prop "count"]
  let hardSolved ←
    path B data [.prop "matchedUser", .prop "submitStats", .prop "acSubmissionNum", .idx 3, .prop "count"]
  let totalHard ← path B data [.prop "allQuestionsCount", .idx 3, .prop "count"]
  let accepted ←
    path B data [.prop "matchedUser", .prop "submitStats", .prop "acSubmissionNum", .idx 0,
      .prop "submissions"]
  let total ←
    path B data [.prop "matchedUser", .prop "submitStats", .prop "totalSubmissionNum", .idx 0,
      .prop "submissions"]
  let ranking ← path B data [.prop "matchedUser", .prop "profile", .prop "ranking"]
  let contributionPoints ← path B data [.prop "matchedUser", .prop "contributions", .prop "points"]
  let reputation ← path B data [.prop "matchedUser", .prop "profile", .prop "reputation"]
  pure (JSVal.obj [
    ("status", JSVal.str "success"),
    ("message", JSVal.str "retrieved"),
    ("totalSolved", totalSolved),
    ("totalQuestions", totalQuestions),
    ("easySolved", easySolved),
    ("totalEasy", totalEasy),
    ("mediumSolved", mediumSolved),
    ("totalMedium", totalMedium),
    ("hardSolved", hardSolved),
    ("totalHard", totalHard),
    ("acceptanceRate",
      JSVal.num (JSNum.mul B.round (JSNum.div B.round (accepted.toNumber B) (total.toNumber B))
        (JSNum.fin 100))),
    ("ranking", ranking),
    ("contributionPoints", contributionPoints),
    ("reputation", reputation),
    ("submissionCalendar", submissionCalendar)])

/-- The cache key of line 83 and line 134. -/
def leetcodeKey (username : String) : String := "leetcode-data-" ++ username

/-- The handler of `/leetcode-data`. `username` is `req.query.username`,
`none` when the query carries no such parameter (repeated or bracketed
parameters, which the query parser turns into arrays or objects, are outside
the model). `now` is the clock at the cache read and `now + latency` the clock
at the cache write. -/
def leetcodeData (B : Builtins) (upstream : Upstream) (now latency : Nat)
    (username : Option String) (cache : Cache) : Outcome :=
  match username with
  | none => ⟨⟨400, errorBody "Username query parameter is required"⟩, cache, []⟩
  | some u =>
    if u = "" then
      ⟨⟨400, errorBody "Username query parameter is required"⟩, cache, []⟩
    else
      let r := cache.get (leetcodeKey u) now
      if r.1.truthy then
        ⟨⟨200, r.1⟩, r.2, [Effect.cacheGet (leetcodeKey u)]⟩
      else
        let performed := [Effect.cacheGet (leetcodeKey u), Effect.upstream (UpstreamCall.leetcode u)]
        match upstream (UpstreamCall.leetcode u) with
        | .error msg => ⟨⟨500, leetcodeErrorBody msg⟩, r.2, performed⟩
        | .ok payload =>
          -- line 110: `response.data.data`
          match payload.getProp B "data" with
          | .error msg => ⟨⟨500, leetcodeErrorBody msg⟩, r.2, performed⟩
          | .ok data =>
            -- line 111: `!data || !data.matchedUser`; the read of `matchedUser`
            -- happens only for a truthy `data`, so it cannot throw
            if !data.truthy || !(data.lookupProp "matchedUser").truthy then
              ⟨⟨404, errorBody "User not found"⟩, r.2, performed⟩
            else
              match buildStats B data with
              | .error msg => ⟨⟨500, leetcodeErrorBody msg⟩, r.2, performed⟩
              | .ok stats =>
                ⟨⟨200, stats⟩, r.2.set (leetcodeKey u) stats 300 (now + latency),
                  performed ++ [Effect.cacheSet (leetcodeKey u) stats 300]⟩

/-! ## A concrete runtime and sample payloads, for evaluating the model -/

/-- A runtime instance: it parses the serialized empty object only, converts
no string, array or object to a number, and rounds nothing, which is exact
whenever the exact quotient or product is itself a double (as 150 / 300 and
0.5 * 100 are). -/
def sampleBuiltins : Builtins where
  jsonParse := fun v =>
    match v with
    | JSVal.str s => if s = "\x7b\x7d" then .ok (JSVal.obj []) else .error "Unexpected token"
    | _ => .error "Unexpected token"
  typeErrorMessage := fun _ k => "Cannot read properties of undefined: " ++ k
  coerceToNumber := fun _ => JSNum.nan
  strCharAt := fun _ _ => none
  round := fun q => JSNum.fin q

/-- An entry `{ count, submissions }` of a difficulty array. -/
def tierEntry (count submissions : ℚ) : JSVal :=
  JSVal.obj [("count", JSVal.num (JSNum.fin count)),
             ("submissions", JSVal.num (JSNum.fin submissions))]

/-- An entry `{ count }` of `allQuestionsCount`. -/
def countEntry (count : ℚ) : JSVal := JSVal.obj [("count", JSVal.num (JSNum.fin count))]

/-- The `data` object of a practice-platform answer, assembled from its parts. -/
def mkData (allQuestionsCount acSubmissionNum totalSubmissionNum : List JSVal)
    (profile contributions calendar : JSVal) : JSVal :=
  JSVal.obj [
    ("allQuestionsCount", JSVal.arr allQuestionsCount),
    ("matchedUser", JSVal.obj [
      ("contributions", contributions),
      ("profile", profile),
      ("submissionCalendar", calendar),
      ("submitStats", JSVal.obj [
        ("acSubmissionNum", JSVal.arr acSubmissionNum),
        ("totalSubmissionNum", JSVal.arr totalSubmissionNum)])])]

/-- The global question counts of the worked example. -/
def sampleAllQuestions : List JSVal :=
  [countEntry 3000, countEntry 1500, countEntry 1000, countEntry 500]

/-- A profile object `{ reputation, ranking }`. -/
def sampleProfile : JSVal :=
  JSVal.obj [("reputation", JSVal.num (JSNum.fin 7)), ("ranking", JSVal.num (JSNum.fin 4242))]

/-- A contributions object `{ points }`. -/
def sampleContributions : JSVal := JSVal.obj [("points", JSVal.num (JSNum.fin 55))]

/-- The per-user accepted counts of the worked example. -/
def sampleAccepted : List JSVal :=
  [tierEntry 120 150, tierEntry 60 70, tierEntry 50 60, tierEntry 10 20]

/-- A well-formed `data` object whose tier-All total submissions are `total`. -/
def sampleData (total : ℚ) : JSVal :=
  mkData sampleAllQuestions sampleAccepted [tierEntry 200 total]
    sampleProfile sampleContributions (JSVal.str "\x7b\x7d")

/-- An upstream that answers every request with the same decoded body. -/
def upstreamOk (body : JSVal) : Upstream := fun _ => .ok body

/-- An upstream whose every request fails with the given message. -/
def upstreamFail (msg : String) : Upstream := fun _ => .error msg

/-- A cache holding one entry, written at time 0 with the 300 s TTL, hence
expiring at 300000 ms. -/
def singleEntryCache (key : String) (value : JSVal) : Cache :=
  Cache.empty.set key value 300 0

/-! ## Reference definitions for the normalized record -/

/-- The `count` field of the entry at position `i` of a difficulty array. -/
def countAt (xs : List JSVal) (i : Nat) : JSVal :=
  (xs.getD i JSVal.undefined).lookupProp "count"

/-- The `submissions` field of the entry at position `i` of a difficulty
array, as a number. -/
def submissionsAt (B : Builtins) (xs : List JSVal) (i : Nat) : JSNum :=
  ((xs.getD i JSVal.undefined).lookupProp "submissions").toNumber B

/-- The reference definition of the normalized record: the solved counts are
the `count` fields of `acSubmissionNum` at positions 0 to 3, the question
totals the `count` fields of `allQuestionsCount` at positions 0 to 3, and
`acceptanceRate` is the double
`(acSubmissionNum[0].submissions / totalSubmissionNum[0].submissions) * 100`,
the quotient rounded first and the product rounded after. No difficulty name
is consulted. -/
def referenceStats (B : Builtins) (acSubmissionNum allQuestionsCount totalSubmissionNum : List JSVal)
    (profile contributions parsedCalendar : JSVal) : JSVal :=
  JSVal.obj [
    ("status", JSVal.str "success"),
    ("message", JSVal.str "retrieved"),
    ("totalSolved", countAt acSubmissionNum 0),
    ("totalQuestions", countAt allQuestionsCount 0),
    ("easySolved", countAt acSubmissionNum 1),
    ("totalEasy", countAt allQuestionsCount 1),
    ("mediumSolved", countAt acSubmissionNum 2),
    ("totalMedium", countAt allQuestionsCount 2),
    ("hardSolved", countAt acSubmissionNum 3),
    ("totalHard", countAt allQuestionsCount 3),
    ("acceptanceRate",
      JSVal.num (JSNum.mul B.round
        (JSNum.div B.round (submissionsAt B acSubmissionNum 0)
          (submissionsAt B totalSubmissionNum 0))
        (JSNum.fin 100))),
    ("ranking", profile.lookupProp "ranking"),
    ("contributionPoints", contributions.lookupProp "points"),
    ("reputation", profile.lookupProp "reputation"),
    ("submissionCalendar", parsedCalendar)]

/-- A `data` object from which the `stats` literal can be built. The first
five fields are the conditions "matched-user record present, calendar
parseable, the three difficulty arrays are arrays"; the remaining ones say
that every value a property is read from is neither `undefined` nor `null`:
the entries at positions 0 to 3 of `acSubmissionNum` and `allQuestionsCount`
(which makes both arrays at least 4 long), the entry at position 0 of
`totalSubmissionNum` (which makes it non-empty), `profile` and
`contributions`. -/
structure WellFormed (B : Builtins) (data : JSVal) (ac allQ tot : List JSVal)
    (parsed : JSVal) : Prop where
  matched : (data.lookupProp "matchedUser").truthy = true
  calendar :
    B.jsonParse ((data.lookupProp "matchedUser").lookupProp "submissionCalendar") = .ok parsed
  accepted :
    ((data.lookupProp "matchedUser").lookupProp "submitStats").lookupProp "acSubmissionNum"
      = JSVal.arr ac
  totals :
    ((data.lookupProp "matchedUser").lookupProp "submitStats").lookupProp "totalSubmissionNum"
      = JSVal.arr tot
  questions : data.lookupProp "allQuestionsCount" = JSVal.arr allQ
  acceptedEntries : ∀ i, i < 4 → (ac.getD i JSVal.undefined).nullish = false
  questionEntries : ∀ i, i < 4 → (allQ.getD i JSVal.undefined).nullish = false
  totalEntry : (tot.getD 0 JSVal.undefined).nullish = false
  profile : ((data.lookupProp "matchedUser").lookupProp "profile").nullish = false
  contributions : ((data.lookupProp "matchedUser").lookupProp "contributions").nullish = false

/-- The value of `(a / z) * 100` for a zero `z`: NaN when `a` is NaN or a
zero, otherwise the infinity whose sign is the exclusive or of the signs of
`a` and of `z`. -/
def zeroTotalRate (a z : JSNum) : JSNum :=
  if a.isNaN || a.isZero then JSNum.nan
  else JSNum.signedInf (xor a.isNegative z.isNegative)

/-- A `data` object with four-entry difficulty arrays, a parseable calendar
and a matched user whose `profile` is `null`. -/
def nullProfileData : JSVal :=
  mkData sampleAllQuestions sampleAccepted [tierEntry 200 300]
    JSVal.null sampleContributions (JSVal.str "\x7b\x7d")

/-- A `data` object whose `acSubmissionNum` has three entries only. -/
def shortAcceptedData : JSVal :=
  mkData sampleAllQuestions [tierEntry 120 150, tierEntry 60 70, tierEntry 50 60]
    [tierEntry 200 300] sampleProfile sampleContributions (JSVal.str "\x7b\x7d")

/-- The practice-platform response body `{ data }`. -/
def payloadOf (data : JSVal) : JSVal := JSVal.obj [("data", data)]

/-- An entry `{ difficulty, count, submissions }` as the upstream sends it. -/
def namedEntry (difficulty : String) (count submissions : ℚ) : JSVal :=
  JSVal.obj [("difficulty", JSVal.str difficulty), ("count", JSVal.num (JSNum.fin count)),
             ("submissions", JSVal.num (JSNum.fin submissions))]

/-- Per-user accepted counts whose difficulty names are not in the order
All, Easy, Medium, Hard. -/
def shuffledAccepted : List JSVal :=
  [namedEntry "Hard" 120 150, namedEntry "Medium" 60 70, namedEntry "Easy" 50 60,
   namedEntry "All" 10 20]

/-- A well-formed `data` object built on `shuffledAccepted`. -/
def shuffledData : JSVal :=
  mkData sampleAllQuestions shuffledAccepted [namedEntry "All" 200 300]
    sampleProfile sampleContributions (JSVal.str "\x7b\x7d")

/-- The record normalized from `sampleData`, as a function of its
acceptance rate. -/
def sampleStats (acceptanceRate : JSNum) : JSVal :=
  JSVal.obj [
    ("status", JSVal.str "success"),
    ("message", JSVal.str "retrieved"),
    ("totalSolved", JSVal.num (JSNum.fin 120)),
    ("totalQuestions", JSVal.num (JSNum.fin 3000)),
    ("easySolved", JSVal.num (JSNum.fin 60)),
    ("totalEasy", JSVal.num (JSNum.fin 1500)),
    ("mediumSolved", JSVal.num (JSNum.fin 50)),
    ("totalMedium", JSVal.num (JSNum.fin 1000)),
    ("hardSolved", JSVal.num (JSNum.fin 10)),
    ("totalHard", JSVal.num (JSNum.fin 500)),
    ("acceptanceRate", JSVal.num acceptanceRate),
    ("ranking", JSVal.num (JSNum.fin 4242)),
    ("contributionPoints", JSVal.num (JSNum.fin 55)),
    ("reputation", JSVal.num (JSNum.fin 7)),
    ("submissionCalendar", JSVal.obj [])]

/-! ## Lemmas on the cache -/

theorem Cache.del_absent (c : Cache) (key : String) (h : c key = none) : c.del key = c := by
  funext k
  unfold Cache.del
  split
  · next hk => rw [hk, h]
  · rfl

theorem Cache.get_absent (c : Cache) (key : String) (now : Nat) (h : c key = none) :
    c.get key now = (JSVal.undefined, c) := by
  simp [Cache.get, h]

theorem Cache.get_live (c : Cache) (key : String) (now : Nat) (v : JSVal) (exp : Nat)
    (h : c key = some ⟨v, exp⟩) (hexp : now ≤ exp) : c.get key now = (v, c) := by
  simp [Cache.get, h, Nat.not_lt.mpr hexp]

theorem Cache.get_not_live (c : Cache) (key : String) (now : Nat)
    (h : ∀ e, c key = some e → e.expiresAt < now) :
    c.get key now = (JSVal.undefined, c.del key) := by
  unfold Cache.get
  cases hc : c key with
  | none => simp [Cache.del_absent c key hc]
  | some e => simp [h e hc]

theorem Cache.get_snd_other (c : Cache) (key k : String) (now : Nat) (hk : k ≠ key) :
    (c.get key now).2 k = c k := by
  unfold Cache.get
  cases c key with
  | none => rfl
  | some e =>
    dsimp only
    split
    · simp [Cache.del, hk]
    · rfl

theorem Cache.set_other (c : Cache) (key k : String) (v : JSVal) (ttl now : Nat) (hk : k ≠ key) :
    (c.set key v ttl now) k = c k := by
  simp [Cache.set, hk]

theorem Cache.set_same (c : Cache) (key : String) (v : JSVal) (ttl now : Nat) :
    (c.set key v ttl now) key = some ⟨v, now + ttl * 1000⟩ := by
  simp [Cache.set]

/-! ## Lemmas on cache keys -/

theorem leetcodeKey_injective (a b : String) (h : leetcodeKey a = leetcodeKey b) : a = b := by
  unfold leetcodeKey at h
  have hd := congrArg String.data h
  rw [String.data_append, String.data_append] at hd
  exact String.ext (List.append_cancel_left hd)

theorem leetcodeKey_ne_github (a : String) : leetcodeKey a ≠ "github-data" := by
  unfold leetcodeKey
  intro h
  have hd := congrArg String.data h
  rw [String.data_append] at hd
  have h0 := congrArg List.head? hd
  simp at h0

/-! ## The handlers on a hit, on a missing parameter and on an upstream failure -/

/-- C1: a `/leetcode-data` request without a `username` parameter is answered
with status 400 and body `{ error: "Username query parameter is required" }`,
whatever the cache holds; the handler performs no effect at all (no upstream
call, no cache read, no cache write) and the cache is the one it started with. -/
theorem leetcodeData_missing_username (B : Builtins) (upstream : Upstream) (now latency : Nat)
    (cache : Cache) :
    leetcodeData B upstream now latency none cache =
        ⟨⟨400, JSVal.obj [("error", JSVal.str "Username query parameter is required")]⟩,
          cache, []⟩ ∧
      upstreamCalls (leetcodeData B upstream now latency none cache).trace = 0 ∧
      cacheAccesses (leetcodeData B upstream now latency none cache).trace = 0 := by
  refine ⟨rfl, rfl, rfl⟩

/-- C3 as stated fails: with the falsy value `""` cached and unexpired under
`github-data`, the handler does not answer from the cache; it calls the
upstream, answers with the upstream body and overwrites the entry. -/
theorem cache_hit_falsy_counterexample :
    singleEntryCache "github-data" (JSVal.str "") "github-data"
        = some ⟨JSVal.str "", 300000⟩ ∧
      1000 ≤ 300000 ∧
      (githubData (upstreamOk (JSVal.obj [])) 1000 5
        (singleEntryCache "github-data" (JSVal.str ""))).response = ⟨200, JSVal.obj []⟩ ∧
      upstreamCalls (githubData (upstreamOk (JSVal.obj [])) 1000 5
        (singleEntryCache "github-data" (JSVal.str ""))).trace = 1 ∧
      (githubData (upstreamOk (JSVal.obj [])) 1000 5
        (singleEntryCache "github-data" (JSVal.str ""))).cache "github-data"
        = some ⟨JSVal.obj [], 301005⟩ := by
  refine ⟨rfl, by decide, rfl, rfl, rfl⟩

/-- C3, amended: for both endpoints and every truthy value `v`, if the cache
holds an unexpired entry with value `v` under the request's key
(`github-data`, or `leetcode-data-` followed by the non-empty username), the
handler answers 200 with body exactly `v`, its only effect is the cache
read, and the cache is unchanged. -/
theorem cache_hit_truthy (B : Builtins) (upstream : Upstream) (now latency : Nat) (c : Cache)
    (v : JSVal) (exp : Nat) (u : String) (hv : v.truthy = true) (hexp : now ≤ exp) :
    (c "github-data" = some ⟨v, exp⟩ →
        githubData upstream now latency c = ⟨⟨200, v⟩, c, [Effect.cacheGet "github-data"]⟩) ∧
      (u ≠ "" → c (leetcodeKey u) = some ⟨v, exp⟩ →
        leetcodeData B upstream now latency (some u) c
          = ⟨⟨200, v⟩, c, [Effect.cacheGet (leetcodeKey u)]⟩) := by
  constructor
  · intro h
    simp [githubData, Cache.get_live c _ now v exp h hexp, hv]
  · intro hu h
    simp [leetcodeData, hu, Cache.get_live c _ now v exp h hexp, hv]

/-- Witness of `cache_hit_truthy`: a cached non-empty object, read at time
1000 before its expiry at 300000. -/
theorem cache_hit_truthy_witness :
    (JSVal.obj [("viewer", JSVal.null)]).truthy = true ∧ 1000 ≤ 300000 ∧
      githubData (upstreamFail "down") 1000 5
          (singleEntryCache "github-data" (JSVal.obj [("viewer", JSVal.null)]))
        = ⟨⟨200, JSVal.obj [("viewer", JSVal.null)]⟩,
            singleEntryCache "github-data" (JSVal.obj [("viewer", JSVal.null)]),
            [Effect.cacheGet "github-data"]⟩ :=
  ⟨rfl, by decide,
    (cache_hit_truthy sampleBuiltins (upstreamFail "down") 1000 5
      (singleEntryCache "github-data" (JSVal.obj [("viewer", JSVal.null)]))
      (JSVal.obj [("viewer", JSVal.null)]) 300000 "alice" rfl (by decide)).1 rfl⟩

/-- C10 as stated fails on the cache clause: when an expired `github-data`
entry is still resident, the failed request evicts it, so the cache afterwards
differs from the cache before. -/
theorem github_failure_evicts_counterexample :
    singleEntryCache "github-data" (JSVal.obj []) "github-data"
        = some ⟨JSVal.obj [], 300000⟩ ∧
      300000 < 400000 ∧
      (githubData (upstreamFail "ECONNRESET") 400000 5
        (singleEntryCache "github-data" (JSVal.obj []))).response.status = 500 ∧
      (githubData (upstreamFail "ECONNRESET") 400000 5
        (singleEntryCache "github-data" (JSVal.obj []))).cache "github-data" = none ∧
      (githubData (upstreamFail "ECONNRESET") 400000 5
        (singleEntryCache "github-data" (JSVal.obj []))).cache
        ≠ singleEntryCache "github-data" (JSVal.obj []) := by
  refine ⟨rfl, by decide, rfl, rfl, ?_⟩
  intro h
  have h1 := congrFun h "github-data"
  simp [githubData, Cache.get, Cache.del, singleEntryCache, Cache.set, upstreamFail,
    JSVal.truthy] at h1

/-- C10, amended: when no live `github-data` entry is cached and the upstream
call fails, for whatever reason, the handler answers 500 with body exactly
`{ error: "GitHub API error" }`, stores nothing, and leaves the cache as it
was except that a resident expired `github-data` entry is evicted by the
read; with no entry resident the cache is identical. -/
theorem github_upstream_failure (upstream : Upstream) (now latency : Nat) (c : Cache)
    (msg : String) (hmiss : ∀ e, c "github-data" = some e → e.expiresAt < now)
    (hfail : upstream UpstreamCall.github = .error msg) :
    githubData upstream now latency c
        = ⟨⟨500, JSVal.obj [("error", JSVal.str "GitHub API error")]⟩, c.del "github-data",
            [Effect.cacheGet "github-data", Effect.upstream UpstreamCall.github]⟩ ∧
      (∀ k, k ≠ "github-data" → c.del "github-data" k = c k) ∧
      c.del "github-data" "github-data" = none ∧
      (c "github-data" = none → c.del "github-data" = c) := by
  refine ⟨?_, ?_, ?_, Cache.del_absent c _⟩
  · simp [githubData, Cache.get_not_live c _ now hmiss, hfail, JSVal.truthy, errorBody]
  · intro k hk
    simp [Cache.del, hk]
  · simp [Cache.del]

/-- Witness of `github_upstream_failure`: an empty cache and a failing
upstream. -/
theorem github_upstream_failure_witness :
    (∀ e, Cache.empty "github-data" = some e → e.expiresAt < 1000) ∧
      upstreamFail "ECONNRESET" UpstreamCall.github = .error "ECONNRESET" ∧
      githubData (upstreamFail "ECONNRESET") 1000 5 Cache.empty
        = ⟨⟨500, JSVal.obj [("error", JSVal.str "GitHub API error")]⟩,
            Cache.empty.del "github-data",
            [Effect.cacheGet "github-data", Effect.upstream UpstreamCall.github]⟩ :=
  ⟨fun e h => by simp [Cache.empty] at h, rfl,
    (github_upstream_failure (upstreamFail "ECONNRESET") 1000 5 Cache.empty "ECONNRESET"
      (fun e h => by simp [Cache.empty] at h) rfl).1⟩

/-! ## Key isolation -/

theorem leetcodeData_frame (B : Builtins) (upstream : Upstream) (now latency : Nat)
    (username : Option String) (c : Cache) (k : String)
    (hk : ∀ u, username = some u → k ≠ leetcodeKey u) :
    (leetcodeData B upstream now latency username c).cache k = c k := by
  unfold leetcodeData
  cases username with
  | none => rfl
  | some u =>
    have hku := hk u rfl
    dsimp only
    split
    · rfl
    · split
      · exact Cache.get_snd_other c _ k now hku
      · split
        · exact Cache.get_snd_other c _ k now hku
        · split
          · exact Cache.get_snd_other c _ k now hku
          · split
            · exact Cache.get_snd_other c _ k now hku
            · split
              · exact Cache.get_snd_other c _ k now hku
              · exact (Cache.set_other _ _ _ _ _ _ hku).trans
                  (Cache.get_snd_other c _ k now hku)

/-- C8: for distinct usernames `a` and `b` the keys `leetcode-data-a` and
`leetcode-data-b` are distinct and both differ from `github-data`; hence a
`/leetcode-data` request for `a`, whatever the upstream answers and whatever
its outcome, leaves the cache entry of `b` (value and expiry) and the
`github-data` entry exactly as they were. -/
theorem key_isolation (a b : String) (hab : a ≠ b) :
    leetcodeKey a ≠ leetcodeKey b ∧
      leetcodeKey a ≠ "github-data" ∧ leetcodeKey b ≠ "github-data" ∧
      ∀ (B : Builtins) (upstream : Upstream) (now latency : Nat) (c : Cache),
        (leetcodeData B upstream now latency (some a) c).cache (leetcodeKey b)
            = c (leetcodeKey b) ∧
          (leetcodeData B upstream now latency (some a) c).cache "github-data"
            = c "github-data" := by
  refine ⟨fun h => hab (leetcodeKey_injective a b h), leetcodeKey_ne_github a,
    leetcodeKey_ne_github b, ?_⟩
  intro B upstream now latency c
  constructor
  · apply leetcodeData_frame
    intro u hu h
    cases hu
    exact hab (leetcodeKey_injective a b h.symm)
  · apply leetcodeData_frame
    intro u hu h
    cases hu
    exact leetcodeKey_ne_github a h.symm

/-- Witness of `key_isolation`: the usernames `alice` and `bob`. -/
theorem key_isolation_witness :
    "alice" ≠ "bob" ∧ leetcodeKey "alice" ≠ leetcodeKey "bob" ∧
      leetcodeKey "alice" ≠ "github-data" :=
  ⟨by decide, (key_isolation "alice" "bob" (by decide)).1,
    (key_isolation "alice" "bob" (by decide)).2.1⟩

/-! ## Lemmas on member expressions and on `buildStats` -/

theorem JSVal.nullish_of_truthy (v : JSVal) (h : v.truthy = true) : v.nullish = false := by
  cases v <;> simp_all [JSVal.truthy, JSVal.nullish]

theorem JSVal.nullish_of_lookupProp_truthy (v : JSVal) (k : String)
    (h : (v.lookupProp k).truthy = true) : v.nullish = false := by
  cases v <;> simp_all [JSVal.truthy, JSVal.nullish, JSVal.lookupProp]

theorem JSVal.truthy_of_lookupProp_truthy (v : JSVal) (k : String)
    (h : (v.lookupProp k).truthy = true) : v.truthy = true := by
  cases v <;> simp_all [JSVal.truthy, JSVal.lookupProp]

theorem JSVal.nullish_of_lookupProp_arr (v : JSVal) (k : String) (xs : List JSVal)
    (h : v.lookupProp k = JSVal.arr xs) : v.nullish = false := by
  cases v <;> simp_all [JSVal.nullish, JSVal.lookupProp]

theorem JSVal.truthy_undefined : JSVal.undefined.truthy = false := rfl

theorem JSVal.nullish_arr (xs : List JSVal) : (JSVal.arr xs).nullish = false := rfl

theorem JSVal.lookupIndex_arr (B : Builtins) (xs : List JSVal) (i : Nat) :
    (JSVal.arr xs).lookupIndex B i = xs.getD i JSVal.undefined := rfl

theorem path_nil (B : Builtins) (v : JSVal) : path B v [] = .ok v := rfl

theorem path_prop (B : Builtins) (v : JSVal) (k : String) (rest : List Access)
    (h : v.nullish = false) :
    path B v (Access.prop k :: rest) = path B (v.lookupProp k) rest := by
  simp [path, JSVal.getProp, h]

theorem path_idx (B : Builtins) (v : JSVal) (i : Nat) (rest : List Access)
    (h : v.nullish = false) :
    path B v (Access.idx i :: rest) = path B (v.lookupIndex B i) rest := by
  simp [path, JSVal.getIndex, h]

theorem path_prop_ok (B : Builtins) (v w : JSVal) (k : String) (rest : List Access)
    (h : path B v (Access.prop k :: rest) = .ok w) :
    v.nullish = false ∧ path B (v.lookupProp k) rest = .ok w := by
  cases hn : v.nullish with
  | true => simp [path, JSVal.getProp, hn] at h
  | false => exact ⟨rfl, by rw [← h, path_prop B v k rest hn]⟩

theorem path_idx_ok (B : Builtins) (v w : JSVal) (i : Nat) (rest : List Access)
    (h : path B v (Access.idx i :: rest) = .ok w) :
    v.nullish = false ∧ path B (v.lookupIndex B i) rest = .ok w := by
  cases hn : v.nullish with
  | true => simp [path, JSVal.getIndex, hn] at h
  | false => exact ⟨rfl, by rw [← h, path_idx B v i rest hn]⟩

theorem except_bind_ok {α β : Type} (x : Except String α) (f : α → Except String β) (b : β)
    (h : x >>= f = .ok b) : ∃ a, x = .ok a ∧ f a = .ok b := by
  cases x with
  | error e => cases h
  | ok a => exact ⟨a, rfl, h⟩

theorem List.lt_length_of_getD_not_nullish (xs : List JSVal) (i : Nat)
    (h : (xs.getD i JSVal.undefined).nullish = false) : i < xs.length := by
  by_contra hlt
  rw [List.getD_eq_default _ _ (Nat.le_of_not_lt hlt)] at h
  simp [JSVal.nullish] at h

theorem JSNum.signedInf_not_finite (negative : Bool) :
    (JSNum.signedInf negative).isFinite = false := by
  cases negative <;> rfl

theorem JSNum.signedInf_mul_hundred (round : ℚ → JSNum) (negative : Bool) :
    JSNum.mul round (JSNum.signedInf negative) (JSNum.fin 100) = JSNum.signedInf negative := by
  cases negative <;>
    norm_num [JSNum.mul, JSNum.signedInf, JSNum.isNaN, JSNum.isInf, JSNum.isZero,
      JSNum.isNegative]

theorem JSNum.nan_mul (round : ℚ → JSNum) (y : JSNum) :
    JSNum.mul round JSNum.nan y = JSNum.nan := by
  simp [JSNum.mul, JSNum.isNaN]

theorem JSNum.div_posZero (round : ℚ → JSNum) (a : JSNum) :
    JSNum.div round a (JSNum.fin 0) = zeroTotalRate a (JSNum.fin 0) := by
  cases a with
  | fin x =>
    by_cases hx : x = 0 <;>
      simp [JSNum.div, zeroTotalRate, JSNum.isNaN, JSNum.isInf, JSNum.isZero, hx]
  | _ => simp [JSNum.div, zeroTotalRate, JSNum.isNaN, JSNum.isInf, JSNum.isZero]

theorem JSNum.div_negZero (round : ℚ → JSNum) (a : JSNum) :
    JSNum.div round a JSNum.negZero = zeroTotalRate a JSNum.negZero := by
  cases a with
  | fin x =>
    by_cases hx : x = 0 <;>
      simp [JSNum.div, zeroTotalRate, JSNum.isNaN, JSNum.isInf, JSNum.isZero, hx]
  | _ => simp [JSNum.div, zeroTotalRate, JSNum.isNaN, JSNum.isInf, JSNum.isZero]

theorem JSNum.div_zero (round : ℚ → JSNum) (a z : JSNum) (hz : z.isZero = true) :
    JSNum.div round a z = zeroTotalRate a z := by
  cases z with
  | fin q =>
    have hq : q = 0 := by simpa [JSNum.isZero] using hz
    subst hq
    exact JSNum.div_posZero round a
  | negZero => exact JSNum.div_negZero round a
  | posInf => simp [JSNum.isZero] at hz
  | negInf => simp [JSNum.isZero] at hz
  | nan => simp [JSNum.isZero] at hz

theorem JSNum.div_zero_mul (round : ℚ → JSNum) (a z : JSNum) (hz : z.isZero = true) :
    JSNum.mul round (JSNum.div round a z) (JSNum.fin 100) = zeroTotalRate a z := by
  rw [JSNum.div_zero round a z hz]
  unfold zeroTotalRate
  split
  · exact JSNum.nan_mul round _
  · exact JSNum.signedInf_mul_hundred round _

theorem zeroTotalRate_not_finite (a z : JSNum) : (zeroTotalRate a z).isFinite = false := by
  unfold zeroTotalRate
  split
  · rfl
  · exact JSNum.signedInf_not_finite _

theorem zeroTotalRate_infinite (a z : JSNum) (hzero : a.isZero = false)
    (hnan : a.isNaN = false) :
    zeroTotalRate a z = JSNum.posInf ∨ zeroTotalRate a z = JSNum.negInf := by
  simp only [zeroTotalRate, hzero, hnan, Bool.or_self, Bool.false_eq_true, if_false]
  cases xor a.isNegative z.isNegative
  · exact Or.inl rfl
  · exact Or.inr rfl

theorem zeroTotalRate_nan (a z : JSNum) (h : a.isZero = true ∨ a.isNaN = true) :
    zeroTotalRate a z = JSNum.nan := by
  rcases h with h | h <;> simp [zeroTotalRate, h]

theorem WellFormed.lengths {B : Builtins} {data : JSVal} {ac allQ tot : List JSVal}
    {parsed : JSVal} (h : WellFormed B data ac allQ tot parsed) :
    4 ≤ ac.length ∧ 4 ≤ allQ.length ∧ tot ≠ [] := by
  refine ⟨?_, ?_, ?_⟩
  · exact List.lt_length_of_getD_not_nullish ac 3 (h.acceptedEntries 3 (by decide))
  · exact List.lt_length_of_getD_not_nullish allQ 3 (h.questionEntries 3 (by decide))
  · intro hnil
    have := h.totalEntry
    simp [hnil, JSVal.nullish] at this

theorem buildStats_wellFormed (B : Builtins) (data : JSVal) (ac allQ tot : List JSVal)
    (parsed : JSVal) (h : WellFormed B data ac allQ tot parsed) :
    buildStats B data = .ok (referenceStats B ac allQ tot
      ((data.lookupProp "matchedUser").lookupProp "profile")
      ((data.lookupProp "matchedUser").lookupProp "contributions") parsed) := by
  have hdata : data.nullish = false := JSVal.nullish_of_lookupProp_truthy _ _ h.matched
  have hmu : (data.lookupProp "matchedUser").nullish = false :=
    JSVal.nullish_of_truthy _ h.matched
  have hss : ((data.lookupProp "matchedUser").lookupProp "submitStats").nullish = false :=
    JSVal.nullish_of_lookupProp_arr _ _ _ h.accepted
  have ha0 := h.acceptedEntries 0 (by decide)
  have ha1 := h.acceptedEntries 1 (by decide)
  have ha2 := h.acceptedEntries 2 (by decide)
  have ha3 := h.acceptedEntries 3 (by decide)
  have hq0 := h.questionEntries 0 (by decide)
  have hq1 := h.questionEntries 1 (by decide)
  have hq2 := h.questionEntries 2 (by decide)
  have hq3 := h.questionEntries 3 (by decide)
  have ht0 := h.totalEntry
  have hp := h.profile
  have hc := h.contributions
  simp only [buildStats, path_nil, path_prop B _ _ _ hdata, path_prop B _ _ _ hmu,
    path_prop B _ _ _ hss, h.accepted, h.totals, h.questions, h.calendar,
    path_idx B _ _ _ (JSVal.nullish_arr _), JSVal.lookupIndex_arr,
    path_prop B _ _ _ ha0, path_prop B _ _ _ ha1, path_prop B _ _ _ ha2, path_prop B _ _ _ ha3,
    path_prop B _ _ _ hq0, path_prop B _ _ _ hq1, path_prop B _ _ _ hq2, path_prop B _ _ _ hq3,
    path_prop B _ _ _ ht0, path_prop B _ _ _ hp, path_prop B _ _ _ hc,
    bind, Except.bind, pure, Except.pure, referenceStats, countAt, submissionsAt]

theorem buildStats_ok_inv (B : Builtins) (data s : JSVal) (h : buildStats B data = .ok s) :
    s.truthy = true ∧
      (∀ ac, ((data.lookupProp "matchedUser").lookupProp "submitStats").lookupProp
          "acSubmissionNum" = JSVal.arr ac → 4 ≤ ac.length) ∧
      (∀ allQ, data.lookupProp "allQuestionsCount" = JSVal.arr allQ → 4 ≤ allQ.length) := by
  unfold buildStats at h
  obtain ⟨_, _, h⟩ := except_bind_ok _ _ _ h
  obtain ⟨_, _, h⟩ := except_bind_ok _ _ _ h
  obtain ⟨_, _, h⟩ := except_bind_ok _ _ _ h
  obtain ⟨_, _, h⟩ := except_bind_ok _ _ _ h
  obtain ⟨_, _, h⟩ := except_bind_ok _ _ _ h
  obtain ⟨_, _, h⟩ := except_bind_ok _ _ _ h
  obtain ⟨_, _, h⟩ := except_bind_ok _ _ _ h
  obtain ⟨_, _, h⟩ := except_bind_ok _ _ _ h
  obtain ⟨_, hhard, h⟩ := except_bind_ok _ _ _ h
  obtain ⟨_, htotalHard, h⟩ := except_bind_ok _ _ _ h
  obtain ⟨_, _, h⟩ := except_bind_ok _ _ _ h
  obtain ⟨_, _, h⟩ := except_bind_ok _ _ _ h
  obtain ⟨_, _, h⟩ := except_bind_ok _ _ _ h
  obtain ⟨_, _, h⟩ := except_bind_ok _ _ _ h
  obtain ⟨_, _, h⟩ := except_bind_ok _ _ _ h
  refine ⟨?_, ?_, ?_⟩
  · cases h
    rfl
  · intro ac hac
    obtain ⟨_, h1⟩ := path_prop_ok _ _ _ _ _ hhard
    obtain ⟨_, h2⟩ := path_prop_ok _ _ _ _ _ h1
    obtain ⟨_, h3⟩ := path_prop_ok _ _ _ _ _ h2
    obtain ⟨_, h4⟩ := path_idx_ok _ _ _ _ _ h3
    obtain ⟨h5, _⟩ := path_prop_ok _ _ _ _ _ h4
    rw [hac] at h5
    exact List.lt_length_of_getD_not_nullish ac 3 h5
  · intro allQ hq
    obtain ⟨_, h1⟩ := path_prop_ok _ _ _ _ _ htotalHard
    obtain ⟨_, h2⟩ := path_idx_ok _ _ _ _ _ h1
    obtain ⟨h5, _⟩ := path_prop_ok _ _ _ _ _ h2
    rw [hq] at h5
    exact List.lt_length_of_getD_not_nullish allQ 3 h5

theorem sampleData_wellFormed (total : ℚ) :
    WellFormed sampleBuiltins (sampleData total) sampleAccepted sampleAllQuestions
      [tierEntry 200 total] (JSVal.obj []) where
  matched := rfl
  calendar := rfl
  accepted := rfl
  totals := rfl
  questions := rfl
  acceptedEntries := by
    intro i hi
    interval_cases i <;> rfl
  questionEntries := by
    intro i hi
    interval_cases i <;> rfl
  totalEntry := rfl
  profile := rfl
  contributions := rfl

theorem shuffledData_wellFormed :
    WellFormed sampleBuiltins shuffledData shuffledAccepted sampleAllQuestions
      [namedEntry "All" 200 300] (JSVal.obj []) where
  matched := rfl
  calendar := rfl
  accepted := rfl
  totals := rfl
  questions := rfl
  acceptedEntries := by
    intro i hi
    interval_cases i <;> rfl
  questionEntries := by
    intro i hi
    interval_cases i <;> rfl
  totalEntry := rfl
  profile := rfl
  contributions := rfl

/-! ## The normalized record -/

/-- C4 as stated fails: a payload with a matched user, a parseable calendar,
four-entry `acSubmissionNum` and `allQuestionsCount` arrays and a non-empty
`totalSubmissionNum`, but with `profile: null`, has no normalized record: the
read of `profile.ranking` throws and the handler answers 500. -/
theorem null_profile_counterexample :
    (nullProfileData.lookupProp "matchedUser").truthy = true ∧
      sampleBuiltins.jsonParse
          ((nullProfileData.lookupProp "matchedUser").lookupProp "submissionCalendar")
        = .ok (JSVal.obj []) ∧
      ((nullProfileData.lookupProp "matchedUser").lookupProp "submitStats").lookupProp
          "acSubmissionNum" = JSVal.arr sampleAccepted ∧
      sampleAccepted.length = 4 ∧
      nullProfileData.lookupProp "allQuestionsCount" = JSVal.arr sampleAllQuestions ∧
      sampleAllQuestions.length = 4 ∧
      buildStats sampleBuiltins nullProfileData
        = .error (sampleBuiltins.typeErrorMessage JSVal.null "ranking") ∧
      (leetcodeData sampleBuiltins (upstreamOk (payloadOf nullProfileData)) 1000 5
        (some "alice") Cache.empty).response.status = 500 := by
  refine ⟨rfl, rfl, rfl, rfl, rfl, rfl, rfl, rfl⟩

/-- C4, amended: for every `data` object with a present matched-user record,
a parseable `submissionCalendar`, `acSubmissionNum` and `allQuestionsCount`
arrays of length at least 4 and a non-empty `totalSubmissionNum`, in which
moreover the entries read (positions 0 to 3, and position 0 of
`totalSubmissionNum`) and the `profile` and `contributions` records are not
null, the record built by the handler is the reference record: counts taken
by position 0, 1, 2, 3, `acceptanceRate` the double
`(accepted / total) * 100` (quotient first, each operation rounded), ranking,
reputation and points from `profile` and `contributions`, and the parsed
calendar. Difficulty names play no part. -/
theorem normalized_record_reference (B : Builtins) (data : JSVal) (ac allQ tot : List JSVal)
    (parsed : JSVal) (h : WellFormed B data ac allQ tot parsed) :
    4 ≤ ac.length ∧ 4 ≤ allQ.length ∧ tot ≠ [] ∧
      buildStats B data = .ok (referenceStats B ac allQ tot
        ((data.lookupProp "matchedUser").lookupProp "profile")
        ((data.lookupProp "matchedUser").lookupProp "contributions") parsed) ∧
      (referenceStats B ac allQ tot
        ((data.lookupProp "matchedUser").lookupProp "profile")
        ((data.lookupProp "matchedUser").lookupProp "contributions") parsed).lookupProp
          "acceptanceRate"
        = JSVal.num (JSNum.mul B.round
            (JSNum.div B.round (submissionsAt B ac 0) (submissionsAt B tot 0))
            (JSNum.fin 100)) :=
  ⟨h.lengths.1, h.lengths.2.1, h.lengths.2.2, buildStats_wellFormed B data ac allQ tot parsed h,
    rfl⟩

/-- Witness of `normalized_record_reference`: a payload whose difficulty names
are out of order is still read by position. -/
theorem normalized_record_reference_witness :
    WellFormed sampleBuiltins shuffledData shuffledAccepted sampleAllQuestions
        [namedEntry "All" 200 300] (JSVal.obj []) ∧
      buildStats sampleBuiltins shuffledData
        = .ok (referenceStats sampleBuiltins shuffledAccepted sampleAllQuestions
            [namedEntry "All" 200 300] sampleProfile sampleContributions (JSVal.obj [])) ∧
      countAt shuffledAccepted 0 = JSVal.num (JSNum.fin 120) ∧
      countAt shuffledAccepted 3 = JSVal.num (JSNum.fin 10) :=
  ⟨shuffledData_wellFormed,
    (normalized_record_reference sampleBuiltins shuffledData shuffledAccepted sampleAllQuestions
      [namedEntry "All" 200 300] (JSVal.obj []) shuffledData_wellFormed).2.2.2.1, rfl, rfl⟩

theorem referenceStats_totalSolved (B : Builtins) (ac allQ tot : List JSVal)
    (profile contributions parsed : JSVal) :
    (referenceStats B ac allQ tot profile contributions parsed).lookupProp "totalSolved"
      = countAt ac 0 := rfl

theorem referenceStats_totalQuestions (B : Builtins) (ac allQ tot : List JSVal)
    (profile contributions parsed : JSVal) :
    (referenceStats B ac allQ tot profile contributions parsed).lookupProp "totalQuestions"
      = countAt allQ 0 := rfl

theorem referenceStats_acceptanceRate (B : Builtins) (ac allQ tot : List JSVal)
    (profile contributions parsed : JSVal) :
    (referenceStats B ac allQ tot profile contributions parsed).lookupProp "acceptanceRate"
      = JSVal.num (JSNum.mul B.round
          (JSNum.div B.round (submissionsAt B ac 0) (submissionsAt B tot 0))
          (JSNum.fin 100)) := rfl

theorem buildStats_sampleData (total : ℚ) :
    buildStats sampleBuiltins (sampleData total)
      = .ok (sampleStats
          (JSNum.mul sampleBuiltins.round
            (JSNum.div sampleBuiltins.round (JSNum.fin 150) (JSNum.fin total))
            (JSNum.fin 100))) := rfl

/-- C5 as stated fails: with the example's `allQuestionsCount` and an
`acSubmissionNum` beginning with `{ count: 120, submissions: 150 }`, a payload
whose tier-All total submissions are 300 is normalized to
`acceptanceRate = 50`, not 80. -/
theorem acceptance_rate_example_counterexample :
    (sampleData 300).lookupProp "allQuestionsCount"
        = JSVal.arr [countEntry 3000, countEntry 1500, countEntry 1000, countEntry 500] ∧
      sampleAccepted.head? = some (tierEntry 120 150) ∧
      buildStats sampleBuiltins (sampleData 300) = .ok (sampleStats (JSNum.fin 50)) ∧
      (sampleStats (JSNum.fin 50)).lookupProp "acceptanceRate" = JSVal.num (JSNum.fin 50) ∧
      JSNum.fin 50 ≠ JSNum.fin 80 := by
  refine ⟨rfl, rfl, ?_, rfl, ?_⟩
  · rw [buildStats_sampleData]
    norm_num [JSNum.mul, JSNum.div, JSNum.isNaN, JSNum.isInf, JSNum.isZero, JSNum.value,
      sampleBuiltins]
  · intro h
    injection h with h
    norm_num at h

/-- C5, amended: for every well-formed payload whose `allQuestionsCount` is
the example's and whose `acSubmissionNum` begins with an entry of count 120
and submissions 150, the normalized record has `totalSolved = 120`,
`totalQuestions = 3000` and `acceptanceRate` equal to the double
`(150 / totalSubmissionNum[0].submissions) * 100`: the rate is computed from
the two `submissions` fields, so it is fixed by the tier-All total, which the
example leaves open, and not by the count 120. -/
theorem acceptance_rate_example (B : Builtins) (data : JSVal) (ac tot : List JSVal)
    (parsed : JSVal) (h : WellFormed B data ac sampleAllQuestions tot parsed)
    (hcount : countAt ac 0 = JSVal.num (JSNum.fin 120))
    (hsub : (ac.getD 0 JSVal.undefined).lookupProp "submissions" = JSVal.num (JSNum.fin 150)) :
    ∃ s, buildStats B data = .ok s ∧
      s.lookupProp "totalSolved" = JSVal.num (JSNum.fin 120) ∧
      s.lookupProp "totalQuestions" = JSVal.num (JSNum.fin 3000) ∧
      s.lookupProp "acceptanceRate"
        = JSVal.num (JSNum.mul B.round
            (JSNum.div B.round (JSNum.fin 150) (submissionsAt B tot 0)) (JSNum.fin 100)) := by
  have hsub0 : submissionsAt B ac 0 = JSNum.fin 150 := by
    simp only [submissionsAt, hsub, JSVal.toNumber]
  refine ⟨_, buildStats_wellFormed B data ac sampleAllQuestions tot parsed h, ?_, ?_, ?_⟩
  · rw [referenceStats_totalSolved, hcount]
  · rw [referenceStats_totalQuestions]
    rfl
  · rw [referenceStats_acceptanceRate, hsub0]

/-- Witness of `acceptance_rate_example`: the sample payload with 300 total
submissions. -/
theorem acceptance_rate_example_witness :
    WellFormed sampleBuiltins (sampleData 300) sampleAccepted sampleAllQuestions
        [tierEntry 200 300] (JSVal.obj []) ∧
      countAt sampleAccepted 0 = JSVal.num (JSNum.fin 120) ∧
      (sampleAccepted.getD 0 JSVal.undefined).lookupProp "submissions"
        = JSVal.num (JSNum.fin 150) ∧
      ∃ s, buildStats sampleBuiltins (sampleData 300) = .ok s ∧
        s.lookupProp "totalSolved" = JSVal.num (JSNum.fin 120) ∧
        s.lookupProp "totalQuestions" = JSVal.num (JSNum.fin 3000) ∧
        s.lookupProp "acceptanceRate"
          = JSVal.num (JSNum.mul sampleBuiltins.round
              (JSNum.div sampleBuiltins.round (JSNum.fin 150)
                (submissionsAt sampleBuiltins [tierEntry 200 300] 0)) (JSNum.fin 100)) :=
  ⟨sampleData_wellFormed 300, rfl, rfl,
    (acceptance_rate_example sampleBuiltins (sampleData 300) sampleAccepted [tierEntry 200 300]
      (JSVal.obj []) (sampleData_wellFormed 300) rfl rfl)⟩

/-! ## `/leetcode-data` on a cache miss -/

theorem leetcodeData_miss_built (B : Builtins) (upstream : Upstream) (now latency : Nat)
    (c : Cache) (u : String) (payload : JSVal) (hu : u ≠ "")
    (hmiss : (c.get (leetcodeKey u) now).1.truthy = false)
    (hup : upstream (UpstreamCall.leetcode u) = .ok payload)
    (hmu : ((payload.lookupProp "data").lookupProp "matchedUser").truthy = true) :
    leetcodeData B upstream now latency (some u) c =
      match buildStats B (payload.lookupProp "data") with
      | .error msg =>
          ⟨⟨500, leetcodeErrorBody msg⟩, (c.get (leetcodeKey u) now).2,
            [Effect.cacheGet (leetcodeKey u), Effect.upstream (UpstreamCall.leetcode u)]⟩
      | .ok stats =>
          ⟨⟨200, stats⟩,
            (c.get (leetcodeKey u) now).2.set (leetcodeKey u) stats 300 (now + latency),
            [Effect.cacheGet (leetcodeKey u), Effect.upstream (UpstreamCall.leetcode u),
             Effect.cacheSet (leetcodeKey u) stats 300]⟩ := by
  have hdata : (payload.lookupProp "data").truthy = true :=
    JSVal.truthy_of_lookupProp_truthy _ _ hmu
  have hpayload : payload.nullish = false :=
    JSVal.nullish_of_lookupProp_truthy _ _ hdata
  simp only [leetcodeData, hu, if_false, hmiss, Bool.false_eq_true, hup, JSVal.getProp,
    hpayload, hdata, hmu, Bool.not_true, Bool.or_self]
  cases buildStats B (payload.lookupProp "data") <;> rfl

/-- C2 as stated fails on the cache clause: when an expired entry for the
username is still resident, the request answered 404 evicts it, so the cache
afterwards differs from the cache before. (A payload that is itself `null`
has no `data` either, and is answered 500: reading `response.data.data`
throws.) -/
theorem user_not_found_evicts_counterexample :
    singleEntryCache (leetcodeKey "alice") (JSVal.obj []) (leetcodeKey "alice")
        = some ⟨JSVal.obj [], 300000⟩ ∧
      300000 < 400000 ∧
      (leetcodeData sampleBuiltins
          (upstreamOk (payloadOf (JSVal.obj [("matchedUser", JSVal.null)]))) 400000 5
          (some "alice") (singleEntryCache (leetcodeKey "alice") (JSVal.obj []))).response
        = ⟨404, JSVal.obj [("error", JSVal.str "User not found")]⟩ ∧
      (leetcodeData sampleBuiltins
          (upstreamOk (payloadOf (JSVal.obj [("matchedUser", JSVal.null)]))) 400000 5
          (some "alice") (singleEntryCache (leetcodeKey "alice") (JSVal.obj []))).cache
          (leetcodeKey "alice") = none ∧
      (leetcodeData sampleBuiltins
          (upstreamOk (payloadOf (JSVal.obj [("matchedUser", JSVal.null)]))) 400000 5
          (some "alice") (singleEntryCache (leetcodeKey "alice") (JSVal.obj []))).cache
        ≠ singleEntryCache (leetcodeKey "alice") (JSVal.obj []) ∧
      (leetcodeData sampleBuiltins (upstreamOk JSVal.null) 1000 5 (some "alice")
        Cache.empty).response.status = 500 := by
  have hnone : (leetcodeData sampleBuiltins
      (upstreamOk (payloadOf (JSVal.obj [("matchedUser", JSVal.null)]))) 400000 5
      (some "alice") (singleEntryCache (leetcodeKey "alice") (JSVal.obj []))).cache
      (leetcodeKey "alice") = none := rfl
  refine ⟨rfl, by decide, rfl, hnone, ?_, rfl⟩
  intro h
  rw [h] at hnone
  cases hnone

/-- C2, amended: for a non-empty username `u` with no live cache entry, if the
upstream call succeeds with a non-null payload whose `data` is missing or
falsy, or whose `data.matchedUser` is missing or null, the handler answers 404
with body `{ error: "User not found" }` and stores nothing: the cache
afterwards is the cache before, except that a resident expired entry for `u`
is evicted by the read; with no entry resident the cache is identical. -/
theorem user_not_found (B : Builtins) (upstream : Upstream) (now latency : Nat) (c : Cache)
    (u : String) (payload : JSVal) (hu : u ≠ "")
    (hmiss : ∀ e, c (leetcodeKey u) = some e → e.expiresAt < now)
    (hup : upstream (UpstreamCall.leetcode u) = .ok payload)
    (hpayload : payload.nullish = false)
    (habsent : (payload.lookupProp "data").truthy = false ∨
      ((payload.lookupProp "data").lookupProp "matchedUser").truthy = false) :
    leetcodeData B upstream now latency (some u) c
        = ⟨⟨404, JSVal.obj [("error", JSVal.str "User not found")]⟩, c.del (leetcodeKey u),
            [Effect.cacheGet (leetcodeKey u), Effect.upstream (UpstreamCall.leetcode u)]⟩ ∧
      (∀ k, k ≠ leetcodeKey u → c.del (leetcodeKey u) k = c k) ∧
      c.del (leetcodeKey u) (leetcodeKey u) = none ∧
      (c (leetcodeKey u) = none → c.del (leetcodeKey u) = c) := by
  refine ⟨?_, ?_, ?_, Cache.del_absent c _⟩
  · have hcond : (!(payload.lookupProp "data").truthy ||
        !((payload.lookupProp "data").lookupProp "matchedUser").truthy) = true := by
      cases habsent with
      | inl h => simp [h]
      | inr h => simp [h]
    simp only [leetcodeData, hu, if_false, Cache.get_not_live c _ now hmiss,
      JSVal.truthy_undefined, Bool.false_eq_true, hup, JSVal.getProp, hpayload, hcond, if_true,
      errorBody]
  · intro k hk
    simp [Cache.del, hk]
  · simp [Cache.del]

/-- Witness of `user_not_found`: an empty cache and a payload
`{ data: { matchedUser: null } }`. -/
theorem user_not_found_witness :
    "alice" ≠ "" ∧
      (∀ e, Cache.empty (leetcodeKey "alice") = some e → e.expiresAt < 1000) ∧
      (payloadOf (JSVal.obj [("matchedUser", JSVal.null)])).nullish = false ∧
      leetcodeData sampleBuiltins
          (upstreamOk (payloadOf (JSVal.obj [("matchedUser", JSVal.null)]))) 1000 5
          (some "alice") Cache.empty
        = ⟨⟨404, JSVal.obj [("error", JSVal.str "User not found")]⟩,
            Cache.empty.del (leetcodeKey "alice"),
            [Effect.cacheGet (leetcodeKey "alice"),
             Effect.upstream (UpstreamCall.leetcode "alice")]⟩ :=
  ⟨by decide, fun e h => by simp [Cache.empty] at h, rfl,
    (user_not_found sampleBuiltins
      (upstreamOk (payloadOf (JSVal.obj [("matchedUser", JSVal.null)]))) 1000 5 Cache.empty
      "alice" (payloadOf (JSVal.obj [("matchedUser", JSVal.null)])) (by decide)
      (fun e h => by simp [Cache.empty] at h) rfl rfl (Or.inr rfl)).1⟩

/-- C6 as stated fails on the cache clause: when an expired entry for the
username is still resident, the request answered 500 for a three-entry
`acSubmissionNum` evicts it, so the cache afterwards differs from the cache
before. -/
theorem short_array_evicts_counterexample :
    singleEntryCache (leetcodeKey "alice") (JSVal.obj []) (leetcodeKey "alice")
        = some ⟨JSVal.obj [], 300000⟩ ∧
      300000 < 400000 ∧
      (leetcodeData sampleBuiltins (upstreamOk (payloadOf shortAcceptedData)) 400000 5
          (some "alice") (singleEntryCache (leetcodeKey "alice") (JSVal.obj []))).response.status
        = 500 ∧
      (leetcodeData sampleBuiltins (upstreamOk (payloadOf shortAcceptedData)) 400000 5
          (some "alice") (singleEntryCache (leetcodeKey "alice") (JSVal.obj []))).cache
          (leetcodeKey "alice") = none ∧
      (leetcodeData sampleBuiltins (upstreamOk (payloadOf shortAcceptedData)) 400000 5
          (some "alice") (singleEntryCache (leetcodeKey "alice") (JSVal.obj []))).cache
        ≠ singleEntryCache (leetcodeKey "alice") (JSVal.obj []) := by
  have hnone : (leetcodeData sampleBuiltins (upstreamOk (payloadOf shortAcceptedData)) 400000 5
      (some "alice") (singleEntryCache (leetcodeKey "alice") (JSVal.obj []))).cache
      (leetcodeKey "alice") = none := rfl
  refine ⟨rfl, by decide, rfl, hnone, ?_⟩
  intro h
  rw [h] at hnone
  cases hnone

/-- C6, amended: for a non-empty username with no live cache entry and a
payload with a present matched-user record in which `acSubmissionNum` or
`allQuestionsCount` is an array of fewer than 4 entries, the handler answers
500 with a body whose `error` field is "LeetCode API error" (and whose
`details` field is the message of the error thrown) and stores nothing: the
cache afterwards is the cache before, except that a resident expired entry for
the username is evicted by the read; with no entry resident the cache is
identical. -/
theorem short_array_error (B : Builtins) (upstream : Upstream) (now latency : Nat) (c : Cache)
    (u : String) (payload : JSVal) (hu : u ≠ "")
    (hmiss : ∀ e, c (leetcodeKey u) = some e → e.expiresAt < now)
    (hup : upstream (UpstreamCall.leetcode u) = .ok payload)
    (hmu : ((payload.lookupProp "data").lookupProp "matchedUser").truthy = true)
    (hshort :
      (∃ ac, ((((payload.lookupProp "data").lookupProp "matchedUser").lookupProp
          "submitStats").lookupProp "acSubmissionNum" = JSVal.arr ac) ∧ ac.length < 4) ∨
      (∃ allQ, (payload.lookupProp "data").lookupProp "allQuestionsCount" = JSVal.arr allQ ∧
          allQ.length < 4)) :
    (∃ msg, leetcodeData B upstream now latency (some u) c
        = ⟨⟨500, JSVal.obj [("error", JSVal.str "LeetCode API error"),
              ("details", JSVal.str msg)]⟩, c.del (leetcodeKey u),
            [Effect.cacheGet (leetcodeKey u), Effect.upstream (UpstreamCall.leetcode u)]⟩) ∧
      (∀ k, k ≠ leetcodeKey u → c.del (leetcodeKey u) k = c k) ∧
      c.del (leetcodeKey u) (leetcodeKey u) = none ∧
      (c (leetcodeKey u) = none → c.del (leetcodeKey u) = c) := by
  refine ⟨?_, ?_, ?_, Cache.del_absent c _⟩
  · have hget := Cache.get_not_live c _ now hmiss
    have hm : (c.get (leetcodeKey u) now).1.truthy = false := by rw [hget]; rfl
    rw [leetcodeData_miss_built B upstream now latency c u payload hu hm hup hmu]
    cases hb : buildStats B (payload.lookupProp "data") with
    | error msg => exact ⟨msg, by rw [hget]; rfl⟩
    | ok stats =>
      exfalso
      obtain ⟨_, hac, hq⟩ := buildStats_ok_inv B _ _ hb
      rcases hshort with ⟨ac, h1, h2⟩ | ⟨allQ, h1, h2⟩
      · exact absurd (hac ac h1) (by omega)
      · exact absurd (hq allQ h1) (by omega)
  · intro k hk
    simp [Cache.del, hk]
  · simp [Cache.del]

/-- Witness of `short_array_error`: an empty cache and a payload whose
`acSubmissionNum` has three entries. -/
theorem short_array_error_witness :
    "alice" ≠ "" ∧
      (∀ e, Cache.empty (leetcodeKey "alice") = some e → e.expiresAt < 1000) ∧
      (((payloadOf shortAcceptedData).lookupProp "data").lookupProp "matchedUser").truthy
        = true ∧
      (∃ msg, leetcodeData sampleBuiltins (upstreamOk (payloadOf shortAcceptedData)) 1000 5
          (some "alice") Cache.empty
        = ⟨⟨500, JSVal.obj [("error", JSVal.str "LeetCode API error"),
              ("details", JSVal.str msg)]⟩, Cache.empty.del (leetcodeKey "alice"),
            [Effect.cacheGet (leetcodeKey "alice"),
             Effect.upstream (UpstreamCall.leetcode "alice")]⟩) :=
  ⟨by decide, fun e h => by simp [Cache.empty] at h, rfl,
    (short_array_error sampleBuiltins (upstreamOk (payloadOf shortAcceptedData)) 1000 5
      Cache.empty "alice" (payloadOf shortAcceptedData) (by decide)
      (fun e h => by simp [Cache.empty] at h) rfl rfl
      (Or.inl ⟨[tierEntry 120 150, tierEntry 60 70, tierEntry 50 60], rfl, by decide⟩)).1⟩

/-! ## Filling the cache -/

theorem githubData_miss_ok (upstream : Upstream) (now latency : Nat) (c : Cache) (r : JSVal)
    (hmiss : (c.get "github-data" now).1.truthy = false)
    (hup : upstream UpstreamCall.github = .ok r) :
    githubData upstream now latency c
      = ⟨⟨200, r⟩, (c.get "github-data" now).2.set "github-data" r 300 (now + latency),
          [Effect.cacheGet "github-data", Effect.upstream UpstreamCall.github,
           Effect.cacheSet "github-data" r 300]⟩ := by
  simp only [githubData, hmiss, Bool.false_eq_true, if_false, hup]

theorem githubData_hit (upstream : Upstream) (now latency : Nat) (c : Cache) (v : JSVal)
    (exp : Nat) (h : c "github-data" = some ⟨v, exp⟩) (hexp : now ≤ exp)
    (hv : v.truthy = true) :
    githubData upstream now latency c = ⟨⟨200, v⟩, c, [Effect.cacheGet "github-data"]⟩ := by
  simp [githubData, Cache.get_live c _ now v exp h hexp, hv]

theorem leetcodeData_hit (B : Builtins) (upstream : Upstream) (now latency : Nat) (c : Cache)
    (u : String) (v : JSVal) (exp : Nat) (hu : u ≠ "")
    (h : c (leetcodeKey u) = some ⟨v, exp⟩) (hexp : now ≤ exp) (hv : v.truthy = true) :
    leetcodeData B upstream now latency (some u) c
      = ⟨⟨200, v⟩, c, [Effect.cacheGet (leetcodeKey u)]⟩ := by
  simp [leetcodeData, hu, Cache.get_live c _ now v exp h hexp, hv]

/-- C7 as stated fails: `/github-data` on an empty cache at time 1000, with an
upstream that answers the falsy body `""` after 5 ms, stores the body with
expiry 301005 (the write time plus 300 s, not the miss time plus 300 s), and
an identical request at time 2000 is not answered from the cache: it calls the
upstream again. -/
theorem cache_fill_falsy_counterexample :
    (Cache.empty.get "github-data" 1000).1.truthy = false ∧
      (githubData (upstreamOk (JSVal.str "")) 1000 5 Cache.empty).response
        = ⟨200, JSVal.str ""⟩ ∧
      (githubData (upstreamOk (JSVal.str "")) 1000 5 Cache.empty).cache "github-data"
        = some ⟨JSVal.str "", 301005⟩ ∧
      301005 ≠ 1000 + 300 * 1000 ∧
      2000 < 1000 + 300 * 1000 ∧
      upstreamCalls (githubData (upstreamOk (JSVal.str "")) 2000 5
        (githubData (upstreamOk (JSVal.str "")) 1000 5 Cache.empty).cache).trace = 1 := by
  refine ⟨rfl, rfl, rfl, by decide, by decide, rfl⟩

/-- C7, amended: on a cache miss at time `now`, if the upstream call succeeds
(and, for `/leetcode-data`, the record is built) with result `r`, the handler
answers 200 with body `r` and the cache afterwards holds exactly `r` under the
request's key with expiry equal to the write time `now + latency` plus 300 s;
if `r` is truthy (always the case for `/leetcode-data`), an identical request
at any time up to that expiry, in particular any time before `now` + 300 s, is
answered 200 with `r` from the cache, with no upstream call and the cache
unchanged. -/
theorem cache_fill (B : Builtins) (upstream : Upstream) (now latency : Nat) (c : Cache)
    (r : JSVal) :
    ((c.get "github-data" now).1.truthy = false → upstream UpstreamCall.github = .ok r →
      githubData upstream now latency c
          = ⟨⟨200, r⟩, (c.get "github-data" now).2.set "github-data" r 300 (now + latency),
              [Effect.cacheGet "github-data", Effect.upstream UpstreamCall.github,
               Effect.cacheSet "github-data" r 300]⟩ ∧
        (githubData upstream now latency c).cache "github-data"
          = some ⟨r, now + latency + 300 * 1000⟩ ∧
        (r.truthy = true → ∀ (upstream2 : Upstream) (t2 latency2 : Nat),
          t2 ≤ now + latency + 300 * 1000 →
          githubData upstream2 t2 latency2 (githubData upstream now latency c).cache
            = ⟨⟨200, r⟩, (githubData upstream now latency c).cache,
                [Effect.cacheGet "github-data"]⟩)) ∧
    (∀ (u : String) (payload : JSVal), u ≠ "" →
      (c.get (leetcodeKey u) now).1.truthy = false →
      upstream (UpstreamCall.leetcode u) = .ok payload →
      ((payload.lookupProp "data").lookupProp "matchedUser").truthy = true →
      buildStats B (payload.lookupProp "data") = .ok r →
      leetcodeData B upstream now latency (some u) c
          = ⟨⟨200, r⟩,
              (c.get (leetcodeKey u) now).2.set (leetcodeKey u) r 300 (now + latency),
              [Effect.cacheGet (leetcodeKey u), Effect.upstream (UpstreamCall.leetcode u),
               Effect.cacheSet (leetcodeKey u) r 300]⟩ ∧
        (leetcodeData B upstream now latency (some u) c).cache (leetcodeKey u)
          = some ⟨r, now + latency + 300 * 1000⟩ ∧
        (∀ (upstream2 : Upstream) (t2 latency2 : Nat), t2 ≤ now + latency + 300 * 1000 →
          leetcodeData B upstream2 t2 latency2 (some u)
              (leetcodeData B upstream now latency (some u) c).cache
            = ⟨⟨200, r⟩, (leetcodeData B upstream now latency (some u) c).cache,
                [Effect.cacheGet (leetcodeKey u)]⟩)) := by
  constructor
  · intro hmiss hup
    have hout := githubData_miss_ok upstream now latency c r hmiss hup
    have hentry : (githubData upstream now latency c).cache "github-data"
        = some ⟨r, now + latency + 300 * 1000⟩ := by
      rw [hout]
      simp [Cache.set]
    refine ⟨hout, hentry, ?_⟩
    intro hr upstream2 t2 latency2 ht2
    exact githubData_hit upstream2 t2 latency2 _ r _ hentry ht2 hr
  · intro u payload hu hmiss hup hmu hbuilt
    have hout := leetcodeData_miss_built B upstream now latency c u payload hu hmiss hup hmu
    rw [hbuilt] at hout
    have hentry : (leetcodeData B upstream now latency (some u) c).cache (leetcodeKey u)
        = some ⟨r, now + latency + 300 * 1000⟩ := by
      rw [hout]
      simp [Cache.set]
    refine ⟨hout, hentry, ?_⟩
    intro upstream2 t2 latency2 ht2
    exact leetcodeData_hit B upstream2 t2 latency2 _ u r _ hu hentry ht2
      (buildStats_ok_inv B _ _ hbuilt).1

/-- Witness of `cache_fill`: `/github-data` on an empty cache with an upstream
answering an object, then the same request 2 s later with the upstream
down. -/
theorem cache_fill_witness :
    (Cache.empty.get "github-data" 1000).1.truthy = false ∧
      upstreamOk (JSVal.obj [("viewer", JSVal.null)]) UpstreamCall.github
        = .ok (JSVal.obj [("viewer", JSVal.null)]) ∧
      (JSVal.obj [("viewer", JSVal.null)]).truthy = true ∧
      3000 ≤ 1000 + 5 + 300 * 1000 ∧
      githubData (upstreamFail "down") 3000 5
          (githubData (upstreamOk (JSVal.obj [("viewer", JSVal.null)])) 1000 5 Cache.empty).cache
        = ⟨⟨200, JSVal.obj [("viewer", JSVal.null)]⟩,
            (githubData (upstreamOk (JSVal.obj [("viewer", JSVal.null)])) 1000 5
              Cache.empty).cache,
            [Effect.cacheGet "github-data"]⟩ :=
  ⟨rfl, rfl, rfl, by decide,
    ((cache_fill sampleBuiltins (upstreamOk (JSVal.obj [("viewer", JSVal.null)])) 1000 5
      Cache.empty (JSVal.obj [("viewer", JSVal.null)])).1 rfl rfl).2.2 rfl
      (upstreamFail "down") 3000 5 (by decide)⟩

/-! ## Division by a zero total -/

/-- C9 as stated fails: with tier-All total submissions 0 and accepted
submissions 150 the handler answers 200, but the `acceptanceRate` of the record
is `Infinity`, not NaN. -/
theorem zero_total_counterexample :
    ([tierEntry 200 0].getD 0 JSVal.undefined).lookupProp "submissions"
        = JSVal.num (JSNum.fin 0) ∧
      (leetcodeData sampleBuiltins (upstreamOk (payloadOf (sampleData 0))) 1000 5
        (some "alice") Cache.empty).response = ⟨200, sampleStats JSNum.posInf⟩ ∧
      (sampleStats JSNum.posInf).lookupProp "acceptanceRate" = JSVal.num JSNum.posInf ∧
      JSNum.posInf ≠ JSNum.nan := by
  refine ⟨rfl, rfl, rfl, by decide⟩

/-- C9, amended: for every well-formed payload whose
`totalSubmissionNum[0].submissions` is a zero (0 or -0), the handler
(non-empty username, cache miss) does not fail: it answers 200 with the
normalized record and caches it. The record's `acceptanceRate` is never a
finite number: it is NaN when `acSubmissionNum[0].submissions` is a zero or
NaN, and `Infinity` or `-Infinity` otherwise. -/
theorem zero_total_submissions (B : Builtins) (upstream : Upstream) (now latency : Nat)
    (c : Cache) (u : String) (payload : JSVal) (ac allQ tot : List JSVal) (parsed : JSVal)
    (hu : u ≠ "") (hmiss : (c.get (leetcodeKey u) now).1.truthy = false)
    (hup : upstream (UpstreamCall.leetcode u) = .ok payload)
    (hwf : WellFormed B (payload.lookupProp "data") ac allQ tot parsed)
    (hzero : (submissionsAt B tot 0).isZero = true) :
    ∃ s r, leetcodeData B upstream now latency (some u) c
          = ⟨⟨200, s⟩,
              (c.get (leetcodeKey u) now).2.set (leetcodeKey u) s 300 (now + latency),
              [Effect.cacheGet (leetcodeKey u), Effect.upstream (UpstreamCall.leetcode u),
               Effect.cacheSet (leetcodeKey u) s 300]⟩ ∧
      s.lookupProp "acceptanceRate" = JSVal.num r ∧
      r.isFinite = false ∧
      ((submissionsAt B ac 0).isZero = true ∨ (submissionsAt B ac 0).isNaN = true →
        r = JSNum.nan) ∧
      ((submissionsAt B ac 0).isZero = false → (submissionsAt B ac 0).isNaN = false →
        r = JSNum.posInf ∨ r = JSNum.negInf) := by
  have hbuilt := buildStats_wellFormed B _ ac allQ tot parsed hwf
  have hout := leetcodeData_miss_built B upstream now latency c u payload hu hmiss hup hwf.matched
  rw [hbuilt] at hout
  have hrate : (referenceStats B ac allQ tot
      (((payload.lookupProp "data").lookupProp "matchedUser").lookupProp "profile")
      (((payload.lookupProp "data").lookupProp "matchedUser").lookupProp "contributions")
      parsed).lookupProp "acceptanceRate"
        = JSVal.num (zeroTotalRate (submissionsAt B ac 0) (submissionsAt B tot 0)) := by
    rw [referenceStats_acceptanceRate, JSNum.div_zero_mul B.round _ _ hzero]
  exact ⟨_, _, hout, hrate, zeroTotalRate_not_finite _ _, zeroTotalRate_nan _ _,
    zeroTotalRate_infinite _ _⟩

/-- Witness of `zero_total_submissions`: the sample payload with a zero
total, requested for `alice` on an empty cache. -/
theorem zero_total_submissions_witness :
    "alice" ≠ "" ∧
      (Cache.empty.get (leetcodeKey "alice") 1000).1.truthy = false ∧
      WellFormed sampleBuiltins ((payloadOf (sampleData 0)).lookupProp "data") sampleAccepted
        sampleAllQuestions [tierEntry 200 0] (JSVal.obj []) ∧
      (submissionsAt sampleBuiltins [tierEntry 200 0] 0).isZero = true ∧
      ∃ s r, (leetcodeData sampleBuiltins (upstreamOk (payloadOf (sampleData 0))) 1000 5
          (some "alice") Cache.empty).response = ⟨200, s⟩ ∧
        s.lookupProp "acceptanceRate" = JSVal.num r ∧ r.isFinite = false :=
  ⟨by decide, rfl, sampleData_wellFormed 0, by decide,
    (zero_total_submissions sampleBuiltins (upstreamOk (payloadOf (sampleData 0))) 1000 5
      Cache.empty "alice" (payloadOf (sampleData 0)) sampleAccepted sampleAllQuestions
      [tierEntry 200 0] (JSVal.obj []) (by decide) rfl rfl (sampleData_wellFormed 0)
      (by decide)).imp
      (fun _ hs => hs.imp (fun _ hr => ⟨congrArg Outcome.response hr.1, hr.2.1, hr.2.2.1⟩))⟩

end PortfolioBackend
